import Mathlib

/-
Verification of the notification-relay service (src/index.js).

The service watches a two-level Realtime-Database change feed
`notifications/{userId}/{notificationId}`, filters each record for
dedup (`processed`) and staleness (5 minutes), resolves the user's
FCM token from Firestore, sends a data-only FCM message, and marks
the record `processed: true` on success.  An HTTP endpoint
`POST /delete-user` deletes an auth account by email.

All definitions below are shallow embeddings of the JavaScript in
src/index.js; external effects (Firestore read, FCM send, RTDB
update) are passed in as explicit outcomes.
-/

namespace NotifRelay

/-- A notification record stored at `notifications/{userId}/{notificationId}`.
JS fields may be absent, so optional fields are `Option`; `processed`
is tested for JS truthiness (`some true` is the only truthy value of
an optional boolean). `timestamp` is epoch milliseconds. -/
structure Notification where
  title : String
  body : String
  link : Option String
  type : Option String
  timestamp : Option Int
  processed : Option Bool
deriving DecidableEq, Repr

/-- Decision of the staleness-and-dedup filter (lines 51-54). -/
inductive FilterDecision where
  | skip
  | proceed
deriving DecidableEq, Repr

/-- Line 54: `Date.now() - notification.timestamp > 5 * 60 * 1000`.
When `timestamp` is absent, the JS subtraction yields `NaN` and the
comparison is `false`, so an absent timestamp is never stale. -/
def isStale (now : Int) (n : Notification) : Bool :=
  match n.timestamp with
  | some t => decide (now - t > 300000)
  | none => false

/-- The per-record guards of lines 51-54, as a pure decision function:
skip when `processed` is truthy, skip when stale, otherwise proceed. -/
def decideRecord (now : Int) (n : Notification) : FilterDecision :=
  if n.processed.getD false then .skip
  else if isStale now n then .skip
  else .proceed

/-- JS `x || d` on an optional string: absent and empty strings are
falsy, so both fall back to the default. -/
def jsOr (v : Option String) (d : String) : String :=
  match v with
  | some s => if s = "" then d else s
  | none => d

/-- The fixed icon URL of line 76. -/
def iconUrl : String := "https://educationfyp.vercel.app/report.png"

/-- The `data` payload of the FCM message (lines 71-77). -/
structure DataPayload where
  title : String
  body : String
  url : String
  type : String
  icon : String
deriving DecidableEq, Repr

/-- The FCM message of lines 68-83. `notificationField` models the
platform-auto-displayed `notification` block, which the source
deliberately omits (line 70) so the message is data-only;
`webpushLink` is `webpush.fcm_options.link`. -/
structure Message where
  token : String
  notificationField : Option (String × String)
  data : DataPayload
  webpushLink : String
deriving DecidableEq, Repr

/-- Construction of the FCM message from a resolved token and a
record (lines 68-83). -/
def buildMessage (fcmToken : String) (n : Notification) : Message :=
  { token := fcmToken
    notificationField := none
    data :=
      { title := n.title
        body := n.body
        url := jsOr n.link "/"
        type := jsOr n.type "info"
        icon := iconUrl }
    webpushLink := jsOr n.link "/" }

/-- Outcome of the Firestore profile lookup (line 60): the document is
missing, or it exists carrying an optional `fcmToken`. -/
inductive FetchOutcome where
  | missing
  | doc (fcmToken : Option String)
deriving DecidableEq, Repr

/-- The external effects one per-record task can hit: the profile
fetch (may throw), the FCM send (returns a message id or throws), and
the marker update (may throw). -/
structure Env where
  fetch : Except Unit FetchOutcome
  send : Except Unit String
  marker : Except Unit Unit
deriving Repr

/-- Observable outcome of one per-record task: how many profile
fetches were issued, the list of messages handed to the gateway, how
many marker updates were issued, the record's stored state after the
run, and whether an exception escaped the handler. -/
structure RunResult where
  fetches : Nat
  sends : List Message
  markerWrites : Nat
  newRecord : Notification
  escaped : Bool
deriving DecidableEq, Repr

/-- The per-record `child_added` handler body (lines 47-106): the
two guards run before any I/O; the outer try/catch swallows fetch
errors; the inner try/catch swallows send and marker-update errors;
the marker update runs only after a successful send. -/
def runRecord (now : Int) (n : Notification) (env : Env) : RunResult :=
  if n.processed.getD false then
    ⟨0, [], 0, n, false⟩
  else if isStale now n then
    ⟨0, [], 0, n, false⟩
  else
    match env.fetch with
    | .error _ => ⟨1, [], 0, n, false⟩
    | .ok .missing => ⟨1, [], 0, n, false⟩
    | .ok (.doc none) => ⟨1, [], 0, n, false⟩
    | .ok (.doc (some tok)) =>
      let msg := buildMessage tok n
      match env.send with
      | .error _ => ⟨1, [msg], 0, n, false⟩
      | .ok _ =>
        match env.marker with
        | .error _ => ⟨1, [msg], 1, n, false⟩
        | .ok _ => ⟨1, [msg], 1, { n with processed := some true }, false⟩

/-- State of the top-level listener manager: the `activeListeners` set
(line 33, modelled as a list) together with the log of per-user
sub-tree attachments performed so far (line 47). -/
structure ManagerState where
  listeners : List String
  attaches : List String
deriving DecidableEq, Repr

/-- The top-level `child_added` handler (lines 36-47): a no-op when
the user is already registered, otherwise register the user and
attach one per-user sub-tree listener. -/
def topHandler (s : ManagerState) (userId : String) : ManagerState :=
  if userId ∈ s.listeners then s
  else { listeners := userId :: s.listeners, attaches := s.attaches ++ [userId] }

/-- Process startup state: no listeners registered, none attached. -/
def initState : ManagerState := ⟨[], []⟩

/-- Deliver a sequence of top-level `child_added` events. -/
def runEvents (s : ManagerState) (evs : List String) : ManagerState :=
  evs.foldl topHandler s

/-- The whole change feed: `userId → notificationId → record`. -/
def RootDb := String → String → Option Notification

/-- Line 91: `userNotifRef.child(notifId).update({ processed: true })` —
a partial update touching only the `processed` field of the one
record keyed by `(userId, notifId)`. -/
def markProcessedDb (db : RootDb) (userId notifId : String) : RootDb :=
  fun u k =>
    if u = userId ∧ k = notifId then
      (db u k).map (fun r => { r with processed := some true })
    else db u k

/-- Errors raised by the auth directory; `userNotFound` carries the
JS error whose `code` is the string of line 144, anything else is
`other` with its `message`. -/
inductive AuthErr where
  | userNotFound (msg : String)
  | other (msg : String)
deriving DecidableEq, Repr

/-- The `error.message` field read on line 151. -/
def AuthErr.message : AuthErr → String
  | .userNotFound m => m
  | .other m => m

/-- The `error.code === 'auth/user-not-found'` test of line 144. -/
def AuthErr.isUserNotFound : AuthErr → Bool
  | .userNotFound _ => true
  | .other _ => false

/-- HTTP response of the delete-user handler: status code plus the
JSON body fields it writes. -/
structure DeleteResponse where
  status : Nat
  success : Bool
  message : Option String
  error : Option String
deriving DecidableEq, Repr

/-- The `POST /delete-user` handler (lines 124-156). `email` is the
parsed body field (absent or empty is falsy and throws
`Email is required`); the directory lookup and the deletion may each
throw; `auth/user-not-found` is normalized to success, every other
error becomes a 500 carrying the error message. -/
def deleteUserHandler (email : Option String)
    (getUserByEmail : String → Except AuthErr String)
    (deleteUser : String → Except AuthErr Unit) : DeleteResponse :=
  let attempt : Except AuthErr Unit :=
    match email with
    | none => .error (.other "Email is required")
    | some e =>
      if e = "" then .error (.other "Email is required")
      else
        match getUserByEmail e with
        | .error err => .error err
        | .ok uid => deleteUser uid
  match attempt with
  | .ok _ =>
    { status := 200, success := true, message := some "User deleted from Auth", error := none }
  | .error err =>
    if err.isUserNotFound then
      { status := 200, success := true, message := some "User already deleted", error := none }
    else
      { status := 500, success := false, message := none, error := some err.message }

/-- JS truthiness of the optional `processed` field: only `some true`
passes the guard on line 51. -/
lemma processed_truthy_iff (n : Notification) :
    n.processed.getD false = true ↔ n.processed = some true := by
  cases h : n.processed with
  | none => simp
  | some b => cases b <;> simp

/-- A `proceed` decision means both guards were false. -/
lemma decideRecord_proceed (now : Int) (n : Notification)
    (h : decideRecord now n = .proceed) :
    n.processed.getD false = false ∧ isStale now n = false := by
  unfold decideRecord at h
  by_cases hp : n.processed.getD false
  · simp [hp] at h
  · by_cases hs : isStale now n
    · simp [hp, hs] at h
    · exact ⟨by simp [hp], by simp [hs]⟩

/-- C2: the staleness-and-dedup decision applies its rules in order:
any record with truthy `processed` is skipped; otherwise any record
older than 300000 ms is skipped; otherwise the record proceeds. -/
theorem filter_correct (now t : Int) (n : Notification)
    (ht : n.timestamp = some t) :
    (n.processed = some true → decideRecord now n = .skip)
    ∧ (n.processed ≠ some true → now - t > 300000 → decideRecord now n = .skip)
    ∧ (n.processed ≠ some true → now - t ≤ 300000 → decideRecord now n = .proceed) := by
  refine ⟨?_, ?_, ?_⟩
  · intro hp
    simp [decideRecord, hp]
  · intro hp hold
    have hpf : n.processed.getD false = false := by
      rcases h : n.processed with _ | b
      · simp
      · cases b
        · simp
        · exact absurd h hp
    simp [decideRecord, hpf, isStale, ht, hold]
  · intro hp hyoung
    have hpf : n.processed.getD false = false := by
      rcases h : n.processed with _ | b
      · simp
      · cases b
        · simp
        · exact absurd h hp
    have hs : isStale now n = false := by
      simp [isStale, ht]
      omega
    simp [decideRecord, hpf, hs]

/-- A concrete fresh, unprocessed record used by witnesses. -/
def freshRecord : Notification :=
  { title := "t"
    body := "b"
    link := none
    type := none
    timestamp := some 900
    processed := some false }

/-- The concrete fresh record passes the filter at time 1000. -/
lemma freshRecord_proceed : decideRecord 1000 freshRecord = .proceed := rfl

/-- Witness for C2 at a concrete fresh, unprocessed record. -/
theorem filter_correct_witness :
    decideRecord 1000 freshRecord = .proceed :=
  (filter_correct 1000 900 freshRecord rfl).2.2 (by simp [freshRecord]) (by decide)

/-- C10: a record with an absent `timestamp` is never classified as
stale (the JS comparison against NaN is false), so when `processed`
is not truthy the filter proceeds regardless of the record's true
age; the decision function is total on such records. -/
theorem missing_timestamp_proceeds (now : Int) (n : Notification)
    (ht : n.timestamp = none) :
    isStale now n = false
    ∧ (n.processed ≠ some true → decideRecord now n = .proceed) := by
  have hs : isStale now n = false := by simp [isStale, ht]
  refine ⟨hs, fun hp => ?_⟩
  have hpf : n.processed.getD false = false := by
    rcases h : n.processed with _ | b
    · simp
    · cases b
      · simp
      · exact absurd h hp
  simp [decideRecord, hpf, hs]

/-- A concrete record with no timestamp field, used by witnesses. -/
def noTimestampRecord : Notification :=
  { title := "t"
    body := "b"
    link := none
    type := none
    timestamp := none
    processed := none }

/-- Witness for C10 at a very old record whose timestamp is absent. -/
theorem missing_timestamp_proceeds_witness :
    decideRecord 99999999 noTimestampRecord = .proceed :=
  (missing_timestamp_proceeds 99999999 noTimestampRecord rfl).2 (by simp [noTimestampRecord])

/-- C8: a stale record (older than 300000 ms) is dropped before any
I/O: whatever the environment would answer, the task performs no
fetch, no send, no marker write, leaves the record unchanged and
raises nothing. -/
theorem stale_skip_no_effects (now t : Int) (n : Notification) (env : Env)
    (ht : n.timestamp = some t) (hold : now - t > 300000) :
    runRecord now n env = ⟨0, [], 0, n, false⟩ := by
  have hs : isStale now n = true := by simp [isStale, ht, hold]
  unfold runRecord
  by_cases hp : n.processed.getD false
  · simp [hp]
  · simp [hp, hs]

/-- A concrete record created at epoch 0, used by witnesses. -/
def epochRecord : Notification :=
  { title := "t"
    body := "b"
    link := none
    type := none
    timestamp := some 0
    processed := some false }

/-- An environment in which every external call succeeds and the
profile resolves to token "tok". -/
def happyEnv : Env :=
  { fetch := .ok (.doc (some "tok"))
    send := .ok "id"
    marker := .ok () }

/-- Witness for C8 at a ten-minute-old record. -/
theorem stale_skip_no_effects_witness :
    runRecord 600000 epochRecord happyEnv = ⟨0, [], 0, epochRecord, false⟩ :=
  stale_skip_no_effects 600000 0 epochRecord happyEnv rfl (by decide)

/-- C7: when the profile document is missing, or exists without a
push token, the task fetches once and then stops: no send, no marker
write, the record unchanged, no error raised — whatever the send and
marker environment would have answered. -/
theorem resolver_stop (now : Int) (n : Notification)
    (s : Except Unit String) (m : Except Unit Unit)
    (h : decideRecord now n = .proceed) :
    runRecord now n ⟨.ok .missing, s, m⟩ = ⟨1, [], 0, n, false⟩
    ∧ runRecord now n ⟨.ok (.doc none), s, m⟩ = ⟨1, [], 0, n, false⟩ := by
  obtain ⟨hp, hs⟩ := decideRecord_proceed now n h
  constructor <;> simp [runRecord, hp, hs]

/-- Witness for C7: a fresh record whose user has no token. -/
theorem resolver_stop_witness :
    runRecord 1000 freshRecord ⟨.ok (.doc none), .ok "id", .ok ()⟩
      = ⟨1, [], 0, freshRecord, false⟩ :=
  (resolver_stop 1000 freshRecord (.ok "id") (.ok ()) freshRecord_proceed).2

/-- C3: when the gateway send throws, the task attempts exactly one
send, writes no marker, leaves the record unchanged and lets no
exception escape; and in any environment whatsoever a marker write
happens only after a successful send. -/
theorem dispatch_failure (now : Int) (n : Notification) (tok : String)
    (mk : Except Unit Unit)
    (h : decideRecord now n = .proceed) :
    runRecord now n ⟨.ok (.doc (some tok)), .error (), mk⟩
      = ⟨1, [buildMessage tok n], 0, n, false⟩
    ∧ (∀ env : Env, 0 < (runRecord now n env).markerWrites →
        ∃ mid, env.send = .ok mid) := by
  obtain ⟨hp, hs⟩ := decideRecord_proceed now n h
  constructor
  · simp [runRecord, hp, hs]
  · intro env hw
    rcases env with ⟨f, s, m⟩
    rcases s with _ | mid
    · exfalso
      revert hw
      unfold runRecord
      rcases f with _ | fo
      · simp [hp, hs]
      · rcases fo with _ | t
        · simp [hp, hs]
        · rcases t with _ | tk <;> simp [hp, hs]
    · exact ⟨mid, rfl⟩

/-- Witness for C3: fresh record, token resolves, send throws. -/
theorem dispatch_failure_witness :
    runRecord 1000 freshRecord ⟨.ok (.doc (some "tok")), .error (), .ok ()⟩
      = ⟨1, [buildMessage "tok" freshRecord], 0, freshRecord, false⟩ :=
  (dispatch_failure 1000 freshRecord "tok" (.ok ()) freshRecord_proceed).1

/-- C1: run the pipeline twice on the same record. The first run
(token resolved, send and marker both succeed) issues exactly one
send and stores `processed = true`; the second run, in any
environment at any time, is skipped by the filter before any fetch
or send, so the two runs together issue exactly one send. -/
theorem pipeline_idempotent (now1 now2 : Int) (n : Notification)
    (tok mid : String) (env2 : Env)
    (h : decideRecord now1 n = .proceed) :
    (runRecord now1 n ⟨.ok (.doc (some tok)), .ok mid, .ok ()⟩).sends.length = 1
    ∧ (runRecord now1 n ⟨.ok (.doc (some tok)), .ok mid, .ok ()⟩).newRecord.processed
        = some true
    ∧ decideRecord now2
        (runRecord now1 n ⟨.ok (.doc (some tok)), .ok mid, .ok ()⟩).newRecord = .skip
    ∧ (runRecord now2
        (runRecord now1 n ⟨.ok (.doc (some tok)), .ok mid, .ok ()⟩).newRecord env2).fetches = 0
    ∧ (runRecord now2
        (runRecord now1 n ⟨.ok (.doc (some tok)), .ok mid, .ok ()⟩).newRecord env2).sends = []
    ∧ (runRecord now1 n ⟨.ok (.doc (some tok)), .ok mid, .ok ()⟩).sends.length
        + (runRecord now2
            (runRecord now1 n ⟨.ok (.doc (some tok)), .ok mid, .ok ()⟩).newRecord env2).sends.length
        = 1 := by
  obtain ⟨hp, hs⟩ := decideRecord_proceed now1 n h
  have h1 : runRecord now1 n ⟨.ok (.doc (some tok)), .ok mid, .ok ()⟩
      = ⟨1, [buildMessage tok n], 1, { n with processed := some true }, false⟩ := by
    simp [runRecord, hp, hs]
  have h2 : runRecord now2 { n with processed := some true } env2
      = ⟨0, [], 0, { n with processed := some true }, false⟩ := by
    unfold runRecord
    simp
  refine ⟨by simp [h1], by simp [h1], ?_, by simp [h1, h2], by simp [h1, h2], by simp [h1, h2]⟩
  simp [h1, decideRecord]

/-- Witness for C1: fresh record, everything succeeds, replayed. -/
theorem pipeline_idempotent_witness :
    (runRecord 1000 freshRecord happyEnv).sends.length
      + (runRecord 600000 (runRecord 1000 freshRecord happyEnv).newRecord happyEnv).sends.length
      = 1 :=
  (pipeline_idempotent 1000 600000 freshRecord "tok" "id" happyEnv
    freshRecord_proceed).2.2.2.2.2

lemma jsOr_none (d : String) : jsOr none d = d := rfl

lemma jsOr_empty (d : String) : jsOr (some "") d = d := by simp [jsOr]

lemma jsOr_some (s d : String) (h : s ≠ "") : jsOr (some s) d = s := by
  simp [jsOr, h]

/-- A concrete record whose `link` is the empty string. -/
def emptyLinkRecord : Notification :=
  { title := "t"
    body := "b"
    link := some ""
    type := none
    timestamp := some 900
    processed := some false }

/-- C5 counterexample: a record whose `link` field is present but
equal to `""` passes the filter and resolves to a token, yet the
message handed to the gateway carries `url = "/"`, not the record's
link: JS `||` treats the empty string as falsy, so the default also
fires on a present-but-empty link, contradicting a default applied
only when the link is absent. -/
theorem message_url_empty_link_cex :
    emptyLinkRecord.link = some ""
    ∧ decideRecord 1000 emptyLinkRecord = .proceed
    ∧ (runRecord 1000 emptyLinkRecord happyEnv).sends
        = [buildMessage "tok" emptyLinkRecord]
    ∧ (buildMessage "tok" emptyLinkRecord).data.url = "/"
    ∧ ("/" : String) ≠ "" := by
  refine ⟨rfl, rfl, ?_, rfl, by decide⟩
  simp [runRecord, emptyLinkRecord, happyEnv, decideRecord, isStale]

/-- C5 (amended): for a record that passes the filter and resolves
to a token, the message sent to the gateway is data-only (the
auto-display `notification` block is absent), addressed by the
resolved token, with payload title and body copied from the record,
the fixed icon URL, `url` equal to the record's link when that is
present and non-empty and `"/"` when it is absent or empty, `type`
equal to the record's type when present and non-empty and `"info"`
otherwise, and the webpush delivery hint equal to the same url. -/
theorem message_construction (now : Int) (n : Notification)
    (tok mid : String) (mk : Except Unit Unit)
    (h : decideRecord now n = .proceed) :
    (runRecord now n ⟨.ok (.doc (some tok)), .ok mid, mk⟩).sends = [buildMessage tok n]
    ∧ (buildMessage tok n).token = tok
    ∧ (buildMessage tok n).notificationField = none
    ∧ (buildMessage tok n).data.title = n.title
    ∧ (buildMessage tok n).data.body = n.body
    ∧ (buildMessage tok n).data.icon = iconUrl
    ∧ (∀ s, n.link = some s → s ≠ "" → (buildMessage tok n).data.url = s)
    ∧ ((n.link = none ∨ n.link = some "") → (buildMessage tok n).data.url = "/")
    ∧ (∀ s, n.type = some s → s ≠ "" → (buildMessage tok n).data.type = s)
    ∧ ((n.type = none ∨ n.type = some "") → (buildMessage tok n).data.type = "info")
    ∧ (buildMessage tok n).webpushLink = (buildMessage tok n).data.url := by
  obtain ⟨hp, hs⟩ := decideRecord_proceed now n h
  have hsends : (runRecord now n ⟨.ok (.doc (some tok)), .ok mid, mk⟩).sends
      = [buildMessage tok n] := by
    rcases mk with _ | u <;> simp [runRecord, hp, hs]
  refine ⟨hsends, rfl, rfl, rfl, rfl, rfl, ?_, ?_, ?_, ?_, rfl⟩
  · intro s hl hne
    simp [buildMessage, hl, jsOr_some s "/" hne]
  · rintro (hl | hl) <;> simp [buildMessage, hl, jsOr, jsOr_empty]
  · intro s hl hne
    simp [buildMessage, hl, jsOr_some s "info" hne]
  · rintro (hl | hl) <;> simp [buildMessage, hl, jsOr, jsOr_empty]

/-- Witness for the amended C5: a record with a non-empty link. -/
def linkedRecord : Notification :=
  { title := "Hi"
    body := "New grade posted"
    link := some "/grades"
    type := none
    timestamp := some 900
    processed := none }

/-- Witness applying the amended C5 at `linkedRecord`. -/
theorem message_construction_witness :
    (runRecord 1000 linkedRecord happyEnv).sends = [buildMessage "tok" linkedRecord]
    ∧ (buildMessage "tok" linkedRecord).data.url = "/grades"
    ∧ (buildMessage "tok" linkedRecord).data.type = "info" :=
  ⟨(message_construction 1000 linkedRecord "tok" "id" (.ok ())
      (by simp [decideRecord, linkedRecord, isStale])).1,
   (message_construction 1000 linkedRecord "tok" "id" (.ok ())
      (by simp [decideRecord, linkedRecord, isStale])).2.2.2.2.2.2.1
      "/grades" rfl (by decide),
   (message_construction 1000 linkedRecord "tok" "id" (.ok ())
      (by simp [decideRecord, linkedRecord, isStale])).2.2.2.2.2.2.2.2.2.1
      (Or.inl rfl)⟩

/-- The manager's invariant: a user carries exactly one attachment
record when registered, none otherwise. -/
def managerInv (s : ManagerState) : Prop :=
  ∀ u, s.attaches.count u = if u ∈ s.listeners then 1 else 0

lemma managerInv_init : managerInv initState := by
  intro u
  simp [initState]

lemma managerInv_topHandler (s : ManagerState) (e : String)
    (h : managerInv s) : managerInv (topHandler s e) := by
  intro u
  unfold topHandler
  by_cases he : e ∈ s.listeners
  · simp [he]
    exact h u
  · simp only [he, if_false]
    by_cases hu : u = e
    · subst hu
      simp [List.count_append, he, h u]
    · simp [List.count_append, List.count_singleton, hu, h u]

lemma managerInv_runEvents (s : ManagerState) (evs : List String)
    (h : managerInv s) : managerInv (runEvents s evs) := by
  induction evs generalizing s with
  | nil => exact h
  | cons e rest ih =>
    exact ih (topHandler s e) (managerInv_topHandler s e h)

lemma mem_listeners_topHandler (s : ManagerState) (e u : String)
    (h : u ∈ s.listeners) : u ∈ (topHandler s e).listeners := by
  unfold topHandler
  by_cases he : e ∈ s.listeners
  · simpa [he]
  · simp [he, h]

lemma mem_listeners_runEvents (s : ManagerState) (evs : List String) (u : String)
    (h : u ∈ evs ∨ u ∈ s.listeners) : u ∈ (runEvents s evs).listeners := by
  induction evs generalizing s with
  | nil =>
    rcases h with h | h
    · exact absurd h (List.not_mem_nil u)
    · exact h
  | cons e rest ih =>
    rcases h with h | h
    · rcases List.mem_cons.mp h with h | h
      · subst h
        refine ih (topHandler s u) (Or.inr ?_)
        unfold topHandler
        by_cases he : u ∈ s.listeners
        · simp [he]
        · simp [he]
      · exact ih (topHandler s e) (Or.inl h)
    · exact ih (topHandler s e) (Or.inr (mem_listeners_topHandler s e u h))

/-- C4: delivering any nonempty sequence of top-level `child_added`
events that all carry the same user id attaches exactly one per-user
sub-tree listener for that user, and after any event sequence
whatsoever (every reachable state of the process) at most one
sub-tree watch exists per user id. -/
theorem registration_unique (userId : String) (evs : List String)
    (hne : evs ≠ []) (hall : ∀ e ∈ evs, e = userId) :
    (runEvents initState evs).attaches.count userId = 1
    ∧ ∀ (evs' : List String) (u : String),
        (runEvents initState evs').attaches.count u ≤ 1 := by
  constructor
  · have hmem : userId ∈ evs := by
      rcases evs with _ | ⟨e, rest⟩
      · exact absurd rfl hne
      · rw [← hall e (List.mem_cons_self e rest)]
        exact List.mem_cons_self e rest
    have hinv := managerInv_runEvents initState evs managerInv_init userId
    have hl : userId ∈ (runEvents initState evs).listeners :=
      mem_listeners_runEvents initState evs userId (Or.inl hmem)
    simpa [hl] using hinv
  · intro evs' u
    have hinv := managerInv_runEvents initState evs' managerInv_init u
    rw [hinv]
    by_cases h : u ∈ (runEvents initState evs').listeners <;> simp [h]

/-- Witness for C4: three replayed events for the same user. -/
theorem registration_unique_witness :
    (runEvents initState ["alice", "alice", "alice"]).attaches.count "alice" = 1 :=
  (registration_unique "alice" ["alice", "alice", "alice"] (by simp)
    (by intro e he; simpa using he)).1

/-- C6: the completion marker is a partial update: it stores
`processed = true` on exactly the record keyed by
`(userId, notifId)`, keeps every other field of that record (title,
body, link, type, timestamp) as it was, and leaves every other key
of the feed untouched. -/
theorem marker_frame (db : RootDb) (userId notifId : String) (n : Notification)
    (h : db userId notifId = some n) :
    markProcessedDb db userId notifId userId notifId
      = some { n with processed := some true }
    ∧ (Notification.mk n.title n.body n.link n.type n.timestamp (some true)
        = { n with processed := some true })
    ∧ (∀ u k, ¬(u = userId ∧ k = notifId) →
        markProcessedDb db userId notifId u k = db u k) := by
  refine ⟨?_, rfl, ?_⟩
  · simp [markProcessedDb, h]
  · intro u k huk
    simp [markProcessedDb, huk]

/-- A concrete one-record feed used by the C6 witness. -/
def exampleDb : RootDb :=
  fun u k => if u = "alice" ∧ k = "n1" then some freshRecord else none

/-- Witness for C6 on a concrete one-record feed. -/
theorem marker_frame_witness :
    markProcessedDb exampleDb "alice" "n1" "alice" "n1"
      = some { freshRecord with processed := some true }
    ∧ markProcessedDb exampleDb "alice" "n1" "alice" "n2" = exampleDb "alice" "n2" :=
  ⟨(marker_frame exampleDb "alice" "n1" freshRecord (by simp [exampleDb])).1,
   (marker_frame exampleDb "alice" "n1" freshRecord (by simp [exampleDb])).2.2
     "alice" "n2" (by simp)⟩

/-- C9: the delete-user endpoint returns 200 with `success: true`
and a message when the lookup-and-delete succeeds; a user-not-found
error from either directory call is normalized to the same 200
success shape; every other error (including a missing email in the
body) yields 500 with `success: false` and the error message. -/
theorem delete_user_contract (e uid m : String)
    (lookup : String → Except AuthErr String)
    (del : String → Except AuthErr Unit)
    (hne : e ≠ "") :
    (lookup e = .ok uid → del uid = .ok () →
      deleteUserHandler (some e) lookup del
        = ⟨200, true, some "User deleted from Auth", none⟩)
    ∧ (lookup e = .error (.userNotFound m) →
      deleteUserHandler (some e) lookup del
        = ⟨200, true, some "User already deleted", none⟩)
    ∧ (lookup e = .ok uid → del uid = .error (.userNotFound m) →
      deleteUserHandler (some e) lookup del
        = ⟨200, true, some "User already deleted", none⟩)
    ∧ (lookup e = .error (.other m) →
      deleteUserHandler (some e) lookup del
        = ⟨500, false, none, some m⟩)
    ∧ (lookup e = .ok uid → del uid = .error (.other m) →
      deleteUserHandler (some e) lookup del
        = ⟨500, false, none, some m⟩)
    ∧ (deleteUserHandler none lookup del
        = ⟨500, false, none, some "Email is required"⟩) := by
  refine ⟨?_, ?_, ?_, ?_, ?_, ?_⟩
  · intro hl hd
    simp [deleteUserHandler, hne, hl, hd]
  · intro hl
    simp [deleteUserHandler, hne, hl, AuthErr.isUserNotFound]
  · intro hl hd
    simp [deleteUserHandler, hne, hl, hd, AuthErr.isUserNotFound]
  · intro hl
    simp [deleteUserHandler, hne, hl, AuthErr.isUserNotFound, AuthErr.message]
  · intro hl hd
    simp [deleteUserHandler, hne, hl, hd, AuthErr.isUserNotFound, AuthErr.message]
  · simp [deleteUserHandler, AuthErr.isUserNotFound, AuthErr.message]

/-- A directory in which every email resolves to uid "u1". -/
def exampleLookup : String → Except AuthErr String := fun _ => .ok "u1"

/-- A directory deletion that always succeeds. -/
def exampleDelete : String → Except AuthErr Unit := fun _ => .ok ()

/-- Witness for C9: a successful lookup-and-delete returns 200. -/
theorem delete_user_contract_witness :
    deleteUserHandler (some "a@b.c") exampleLookup exampleDelete
      = ⟨200, true, some "User deleted from Auth", none⟩ :=
  (delete_user_contract "a@b.c" "u1" "m" exampleLookup exampleDelete
    (by decide)).1 rfl rfl

end NotifRelay
